import Mathlib

/-!
Shallow embedding of `src/scsir/src/command/get_stream_status.rs`.

Machine integers (`u8`, `u16`, `u32`, `usize`) are modelled as `Nat` with an
explicit `% 2^w` wherever overflow matters.  Rust's unsigned subtraction
overflow is a program error (a panic when overflow checks are enabled); it is
modelled as a distinct `overflow` outcome rather than wrapping.

The repository types `ResultData`, `FlexibleStruct` and `Scsi` live outside
`src/`; their small surface used by this file is modelled from the spec
(sections 4.2, 6 and 7) and is marked `Modelled from the spec:` below.
-/

namespace GetStreamStatus

/-- Rust `CommandBuffer` (`#[bitfield]`, modular_bitfield_msb): fields in
declaration order, packed most-significant-bit first, 128 bits total.
Field widths: operation_code B8, reserved_0 B3, service_action B5,
reserved_1 B16, starting_stream_identifier B16, reserved_2 B32,
allocation_length B32, reserved_3 B8, control B8. -/
structure CommandBuffer where
  operation_code : Nat
  reserved_0 : Nat
  service_action : Nat
  reserved_1 : Nat
  starting_stream_identifier : Nat
  reserved_2 : Nat
  allocation_length : Nat
  reserved_3 : Nat
  control : Nat
deriving DecidableEq, Repr

/-- Rust `CommandBuffer::new()`: all fields zero. -/
def CommandBuffer.new : CommandBuffer := ⟨0, 0, 0, 0, 0, 0, 0, 0, 0⟩

def CommandBuffer.with_operation_code (b : CommandBuffer) (v : Nat) : CommandBuffer :=
  { b with operation_code := v }

def CommandBuffer.with_service_action (b : CommandBuffer) (v : Nat) : CommandBuffer :=
  { b with service_action := v }

def CommandBuffer.with_allocation_length (b : CommandBuffer) (v : Nat) : CommandBuffer :=
  { b with allocation_length := v }

def CommandBuffer.set_starting_stream_identifier (b : CommandBuffer) (v : Nat) : CommandBuffer :=
  { b with starting_stream_identifier := v }

def CommandBuffer.set_control (b : CommandBuffer) (v : Nat) : CommandBuffer :=
  { b with control := v }

/-- Serialization of `CommandBuffer` to its 16-byte sequence, MSB-first in
declaration order, multi-byte fields big-endian (modular_bitfield_msb layout).
Each field is masked to its declared width, as the bitfield stores exactly
that many bits. -/
def CommandBuffer.encode (b : CommandBuffer) : List Nat :=
  let op := b.operation_code % 256
  let r0 := b.reserved_0 % 8
  let sa := b.service_action % 32
  let r1 := b.reserved_1 % 65536
  let ssi := b.starting_stream_identifier % 65536
  let r2 := b.reserved_2 % 4294967296
  let al := b.allocation_length % 4294967296
  let r3 := b.reserved_3 % 256
  let ct := b.control % 256
  [op,
   r0 * 32 + sa,
   r1 / 256, r1 % 256,
   ssi / 256, ssi % 256,
   r2 / 16777216, r2 / 65536 % 256, r2 / 256 % 256, r2 % 256,
   al / 16777216, al / 65536 % 256, al / 256 % 256, al % 256,
   r3, ct]

/-- Deserialization of the 16-byte sequence back into `CommandBuffer` fields
(read bits MSB-first in declaration order). Returns `none` unless the input
is exactly 16 bytes. -/
def CommandBuffer.decode (bs : List Nat) : Option CommandBuffer :=
  match bs with
  | [b0, b1, b2, b3, b4, b5, b6, b7, b8, b9, b10, b11, b12, b13, b14, b15] =>
    some
      { operation_code := b0
        reserved_0 := b1 / 32
        service_action := b1 % 32
        reserved_1 := b2 * 256 + b3
        starting_stream_identifier := b4 * 256 + b5
        reserved_2 := ((b6 * 256 + b7) * 256 + b8) * 256 + b9
        allocation_length := ((b10 * 256 + b11) * 256 + b12) * 256 + b13
        reserved_3 := b14
        control := b15 }
  | _ => none

/-- Rust `ParameterHeader` (`#[bitfield]`, 64 bits): parameter_data_length B32,
reserved B16, number_of_open_streams B16. -/
structure ParameterHeader where
  parameter_data_length : Nat
  reserved : Nat
  number_of_open_streams : Nat
deriving DecidableEq, Repr

/-- Serialization of `ParameterHeader` to its 8-byte sequence (MSB-first,
big-endian fields in declaration order). -/
def ParameterHeader.encode (h : ParameterHeader) : List Nat :=
  let pdl := h.parameter_data_length % 4294967296
  let rsv := h.reserved % 65536
  let nos := h.number_of_open_streams % 65536
  [pdl / 16777216, pdl / 65536 % 256, pdl / 256 % 256, pdl % 256,
   rsv / 256, rsv % 256,
   nos / 256, nos % 256]

/-- Rust `Descriptor` (`#[bitfield]`, 64 bits): reserved_0 B16,
stream_identifier B16, reserved_1 B32. -/
structure Descriptor where
  reserved_0 : Nat
  stream_identifier : Nat
  reserved_1 : Nat
deriving DecidableEq, Repr

/-- Serialization of `Descriptor` to its 8-byte sequence (MSB-first,
big-endian fields in declaration order). -/
def Descriptor.encode (d : Descriptor) : List Nat :=
  let r0 := d.reserved_0 % 65536
  let sid := d.stream_identifier % 65536
  let r1 := d.reserved_1 % 4294967296
  [r0 / 256, r0 % 256,
   sid / 256, sid % 256,
   r1 / 16777216, r1 / 65536 % 256, r1 / 256 % 256, r1 % 256]

/-- Modelled from the spec: the Flexible Reply Buffer (spec section 4.2), the
repository type `FlexibleStruct<ParameterHeader, Descriptor>` whose source is
outside `src/`.  One fixed header followed by a caller-declared number of
fixed-size elements; the capacity is fixed at creation. -/
structure FlexibleStruct where
  body : ParameterHeader
  elements : List Descriptor
deriving DecidableEq, Repr

/-- Modelled from the spec: `FlexibleStruct::with_length(n)` allocates a
zero-initialized buffer of capacity `n` elements. -/
def FlexibleStruct.with_length (n : Nat) : FlexibleStruct :=
  { body := ⟨0, 0, 0⟩, elements := List.replicate n ⟨0, 0, 0⟩ }

/-- Modelled from the spec: `FlexibleStruct::length()` is the allocated
element capacity. -/
def FlexibleStruct.length (f : FlexibleStruct) : Nat := f.elements.length

/-- Modelled from the spec: `FlexibleStruct::body_as_ref()` views the header. -/
def FlexibleStruct.body_as_ref (f : FlexibleStruct) : ParameterHeader := f.body

/-- Modelled from the spec: `FlexibleStruct::elements_as_slice()` views the
trailing elements, all `capacity` of them. -/
def FlexibleStruct.elements_as_slice (f : FlexibleStruct) : List Descriptor := f.elements

/-- The structured error type of `crate::Error` as used by this command.
The Rust `ArgumentOutOfBounds` variant carries a formatted message built from
exactly the limit and the rejected value; it is modelled as carrying that
pair.  Transport (ioctl) and protocol (sense) errors carry an opaque code. -/
inductive Error where
  | argumentOutOfBounds (limit : Nat) (value : Nat)
  | ioctlError (code : Nat)
  | commonError (code : Nat)
deriving DecidableEq, Repr

/-- Modelled from the spec: the completed-transaction outcome `ResultData`
(spec section 6) carries a transport-level status, a protocol-level status and
the buffer as filled by the transaction. -/
structure ResultData where
  ioctl_error : Option Nat
  common_error : Option Nat
  data : FlexibleStruct
deriving DecidableEq, Repr

/-- Modelled from the spec: `ResultData::check_ioctl_error()` fails iff the
outcome reports a transport-level error. -/
def ResultData.check_ioctl_error (r : ResultData) : Except Error Unit :=
  match r.ioctl_error with
  | some e => .error (.ioctlError e)
  | none => .ok ()

/-- Modelled from the spec: `ResultData::check_common_error()` fails iff the
outcome reports a protocol-level (sense) error. -/
def ResultData.check_common_error (r : ResultData) : Except Error Unit :=
  match r.common_error with
  | some e => .error (.commonError e)
  | none => .ok ()

/-- Rust `CommandResult`. -/
structure CommandResult where
  total_descripter_length : Nat
  number_of_open_streams : Nat
  stream_identifiers : List Nat
deriving DecidableEq, Repr

/-- Outcome of `process_result`: a typed error, a Rust arithmetic-overflow
program error (panic under overflow checks), or a typed success. -/
inductive ProcessOutcome where
  | err (e : Error)
  | overflow
  | ok (r : CommandResult)
deriving DecidableEq, Repr

/-- Rust `ThisCommand`. -/
structure ThisCommand where
  command_buffer : CommandBuffer
  max_descriptor_length : Nat
deriving DecidableEq, Repr

/-- Rust `ThisCommand::data()`: a fresh zeroed buffer of the requested
capacity. -/
def ThisCommand.data (t : ThisCommand) : FlexibleStruct :=
  FlexibleStruct.with_length t.max_descriptor_length

/-- Rust `ThisCommand::data_size()`: `max_descriptor_length * 8 + 8` in u32. -/
def ThisCommand.data_size (t : ThisCommand) : Nat :=
  (t.max_descriptor_length * 8 % 4294967296 + 8) % 4294967296

/-- Rust `ThisCommand::process_result` (lines 148-166 of the source).
Checks the transport error, then the protocol error; reads the header's
`parameter_data_length`; computes `(length as usize - size_of::<u64>()) /
size_of::<Descriptor>()` — the `usize` subtraction overflows when the reported
length is below 8, a Rust program error modelled as `.overflow`; then copies
out the first `min(length, data.length())` stream identifiers in order. -/
def ThisCommand.process_result (result : ResultData) : ProcessOutcome :=
  match result.check_ioctl_error with
  | .error e => .err e
  | .ok _ =>
    match result.check_common_error with
    | .error e => .err e
    | .ok _ =>
      let data := result.data
      let pdl := data.body_as_ref.parameter_data_length
      if pdl < 8 then .overflow
      else
        let length := (pdl - 8) / 8
        let stream_identifiers :=
          (data.elements_as_slice.take (min length data.length)).map
            Descriptor.stream_identifier
        .ok { total_descripter_length := length
              number_of_open_streams := data.body_as_ref.number_of_open_streams
              stream_identifiers := stream_identifiers }

def OPERATION_CODE : Nat := 0x9E

def SERVICE_ACTION : Nat := 0x16

/-- Rust `GetStreamStatusCommand` builder state (the `interface` reference is
factored out: the transport is passed explicitly to `issue_mut`). -/
structure GetStreamStatusCommand where
  command_buffer : CommandBuffer
  descriptor_length : Nat
deriving DecidableEq, Repr

/-- Rust `GetStreamStatusCommand::new`. -/
def GetStreamStatusCommand.new : GetStreamStatusCommand :=
  { command_buffer :=
      (CommandBuffer.new.with_operation_code OPERATION_CODE).with_service_action SERVICE_ACTION
    descriptor_length := 0 }

/-- Rust builder method `starting_stream_identifier(&mut self, value)`:
mutates in place and returns the borrow; modelled as state in, state out. -/
def GetStreamStatusCommand.set_starting_stream_identifier
    (c : GetStreamStatusCommand) (v : Nat) : GetStreamStatusCommand :=
  { c with command_buffer := c.command_buffer.set_starting_stream_identifier v }

/-- Rust builder method `control(&mut self, value)`. -/
def GetStreamStatusCommand.set_control
    (c : GetStreamStatusCommand) (v : Nat) : GetStreamStatusCommand :=
  { c with command_buffer := c.command_buffer.set_control v }

/-- Rust builder method `descriptor_length(&mut self, value)`. -/
def GetStreamStatusCommand.set_descriptor_length
    (c : GetStreamStatusCommand) (v : Nat) : GetStreamStatusCommand :=
  { c with descriptor_length := v }

/-- Rust `MAX_DESCRIPTOR_LENGTH = (u32::MAX as usize - size_of::<ParameterHeader>())
/ size_of::<Descriptor>() = (4294967295 - 8) / 8`. -/
def MAX_DESCRIPTOR_LENGTH : Nat := (4294967295 - 8) / 8

/-- The validation and request-building prefix of
`GetStreamStatusCommand::issue` (lines 54-72): bounds-check the requested
capacity, then build `ThisCommand` with
`allocation_length = 8u32 + descriptor_length * 8u32` (u32 arithmetic,
modelled wrapping mod 2^32). -/
def GetStreamStatusCommand.build (c : GetStreamStatusCommand) : Except Error ThisCommand :=
  if c.descriptor_length > MAX_DESCRIPTOR_LENGTH then
    .error (.argumentOutOfBounds MAX_DESCRIPTOR_LENGTH c.descriptor_length)
  else
    .ok { command_buffer :=
            c.command_buffer.with_allocation_length
              ((8 + c.descriptor_length * 8 % 4294967296) % 4294967296)
          max_descriptor_length := c.descriptor_length }

/-- Rust `GetStreamStatusCommand::issue(&mut self)`, with the generic
`Scsi::issue` path (outside `src/`) modelled from the spec as: run the
transport on the built command, then `process_result` on the outcome.  The
method takes `&mut self` and its body performs no mutation of `self`
(`with_allocation_length` copies the buffer), so the post-call state of the
borrow is returned alongside the result, unchanged. -/
def GetStreamStatusCommand.issue_mut (c : GetStreamStatusCommand)
    (transport : ThisCommand → ResultData) :
    ProcessOutcome × GetStreamStatusCommand :=
  if c.descriptor_length > MAX_DESCRIPTOR_LENGTH then
    (.err (.argumentOutOfBounds MAX_DESCRIPTOR_LENGTH c.descriptor_length), c)
  else
    let temp : ThisCommand :=
      { command_buffer :=
          c.command_buffer.with_allocation_length
            ((8 + c.descriptor_length * 8 % 4294967296) % 4294967296)
        max_descriptor_length := c.descriptor_length }
    (ThisCommand.process_result (transport temp), c)

/-- Result of one `issue` call. -/
def GetStreamStatusCommand.issueWith (c : GetStreamStatusCommand)
    (transport : ThisCommand → ResultData) : ProcessOutcome :=
  (c.issue_mut transport).1

/-- Concrete command configured with the spec's claimed protocol limit
c = 536870911 as capacity. -/
def cmdC1 : GetStreamStatusCommand :=
  GetStreamStatusCommand.new.set_descriptor_length 536870911

/-- Concrete command configured with capacity 536870912. -/
def cmdC2 : GetStreamStatusCommand :=
  GetStreamStatusCommand.new.set_descriptor_length 536870912

/-- Concrete transport stub used alongside out-of-bounds capacities. -/
def trC2 : ThisCommand → ResultData :=
  fun _ => { ioctl_error := none, common_error := none, data := FlexibleStruct.with_length 0 }

/-- Concrete successful outcome: reported length 24 (two elements) but
allocated capacity one. -/
def resC3 : ResultData :=
  { ioctl_error := none, common_error := none
    data := { body := ⟨24, 0, 7⟩, elements := [⟨0, 99, 0⟩] } }

/-- Concrete outcome with no transport and no protocol error whose header
reports parameter_data_length 0, below the 8-byte overhead. -/
def resC4 : ResultData :=
  { ioctl_error := none, common_error := none
    data := { body := ⟨0, 0, 0⟩, elements := [] } }

/-- Concrete outcome reporting both a transport error and a protocol error. -/
def resC5 : ResultData :=
  { ioctl_error := some 3, common_error := some 4, data := FlexibleStruct.with_length 0 }

/-- Concrete configured command, capacity two. -/
def cmdC6 : GetStreamStatusCommand :=
  (GetStreamStatusCommand.new.set_descriptor_length 2).set_control 1

/-- Concrete transport returning two elements in a full buffer. -/
def trC6 : ThisCommand → ResultData :=
  fun _ =>
    { ioctl_error := none, common_error := none
      data := { body := ⟨24, 0, 4⟩, elements := [⟨0, 7, 0⟩, ⟨0, 8, 0⟩] } }

/-- Concrete command configured with capacity three. -/
def cmdC7 : GetStreamStatusCommand :=
  GetStreamStatusCommand.new.set_descriptor_length 3

/-- Fake transport of the end-to-end scenario: writes header
`(total-parameter-length 24, open-count 5)` and elements with identifiers 10
and 20 into the allocated buffer, leaving the third slot as allocated
(zeroed). -/
def trC7 : ThisCommand → ResultData :=
  fun t =>
    { ioctl_error := none, common_error := none
      data := { body := ⟨24, 0, 5⟩
                elements := [⟨0, 10, 0⟩, ⟨0, 20, 0⟩] ++ t.data.elements.drop 2 } }

/-- Concrete CommandBuffer with every field set to a width-respecting value. -/
def cbC8 : CommandBuffer :=
  ⟨0x9E, 5, 0x16, 4660, 43981, 305419896, 2271560481, 171, 205⟩

/-- Concrete successful outcome where the device reports five elements
(parameter_data_length 48) but only two were allocated. -/
def resC10 : ResultData :=
  { ioctl_error := none, common_error := none
    data := { body := ⟨48, 0, 9⟩, elements := [⟨0, 1, 0⟩, ⟨0, 2, 0⟩] } }

/-- The decoded result of `resC10`. -/
def outC10 : CommandResult := ⟨5, 9, [1, 2]⟩

/-- Claim C1, counterexample: at the claimed limit c = L = 536870911, `issue`
does not compute the allocation-length field — it rejects the capacity,
because the code's limit is (2^32 - 1 - 8) / 8 = 536870910 by integer
division; moreover 8 + 8 * 536870911 = 2^32, which does not fit in 32 bits. -/
theorem c1_counterexample :
    cmdC1.build = .error (.argumentOutOfBounds 536870910 536870911) ∧
    8 + 8 * 536870911 = 4294967296 :=
  ⟨rfl, rfl⟩

/-- Claim C1 (amended): for every requested element capacity
c ≤ MAX_DESCRIPTOR_LENGTH = (2^32 - 1 - 8) / 8 = 536870910, `issue` builds the
request with allocation-length exactly 8 + 8c, and that value stays within
32-bit range, so the u32 computation does not overflow. -/
theorem c1_allocation_no_overflow (c : Nat) (h : c ≤ MAX_DESCRIPTOR_LENGTH) :
    ∃ t, (GetStreamStatusCommand.new.set_descriptor_length c).build = .ok t ∧
      t.command_buffer.allocation_length = 8 + 8 * c ∧
      8 + 8 * c < 4294967296 := by
  simp only [MAX_DESCRIPTOR_LENGTH] at h
  refine ⟨{ command_buffer :=
              GetStreamStatusCommand.new.command_buffer.with_allocation_length
                ((8 + c * 8 % 4294967296) % 4294967296)
            max_descriptor_length := c }, ?_, ?_, by omega⟩
  · simp only [GetStreamStatusCommand.build, GetStreamStatusCommand.set_descriptor_length]
    rw [if_neg (by simp only [MAX_DESCRIPTOR_LENGTH]; omega)]
  · simp only [CommandBuffer.with_allocation_length]
    omega

/-- Claim C1, witness at the largest accepted capacity. -/
theorem c1_allocation_no_overflow_witness :
    ∃ t, (GetStreamStatusCommand.new.set_descriptor_length 536870910).build = .ok t ∧
      t.command_buffer.allocation_length = 8 + 8 * 536870910 ∧
      8 + 8 * 536870910 < 4294967296 :=
  c1_allocation_no_overflow 536870910 (by decide)

/-- Claim C2, counterexample: for the rejected capacity 536870912, the
out-of-bounds error carries the limit 536870910, not the claimed limit
L = 536870911. -/
theorem c2_counterexample :
    cmdC2.build = .error (.argumentOutOfBounds 536870910 536870912) ∧
    cmdC2.build ≠ .error (.argumentOutOfBounds 536870911 536870912) := by
  refine ⟨rfl, ?_⟩
  intro hEq
  rw [show cmdC2.build = .error (.argumentOutOfBounds 536870910 536870912) from rfl] at hEq
  simp at hEq

/-- Claim C2 (amended): for every u32 capacity c strictly greater than
MAX_DESCRIPTOR_LENGTH = 536870910, `issue` fails with an
argument-out-of-bounds error carrying the limit 536870910 and the rejected
value c, and this happens for every transport — the transport is never
contacted. -/
theorem c2_out_of_bounds (c : Nat) (h1 : c < 4294967296)
    (h2 : MAX_DESCRIPTOR_LENGTH < c) :
    ∀ transport, (GetStreamStatusCommand.new.set_descriptor_length c).issueWith transport =
      .err (.argumentOutOfBounds MAX_DESCRIPTOR_LENGTH c) := by
  intro transport
  simp only [GetStreamStatusCommand.issueWith, GetStreamStatusCommand.issue_mut,
    GetStreamStatusCommand.set_descriptor_length]
  rw [if_pos (by simpa using h2)]

/-- Claim C2, witness at capacity 536870913. -/
theorem c2_out_of_bounds_witness :
    (GetStreamStatusCommand.new.set_descriptor_length 536870913).issueWith trC2 =
      .err (.argumentOutOfBounds MAX_DESCRIPTOR_LENGTH 536870913) :=
  c2_out_of_bounds 536870913 (by decide) (by decide) trC2

/-- Claim C3: for every successful reply decoded from a buffer of allocated
capacity c whose header implies a device-reported element count
r = (parameter_data_length - 8) / 8, the decoded stream_identifiers sequence
has exactly min(c, r) elements, copied in their on-wire order. -/
theorem c3_decode_clamps (res : ResultData) (r c : Nat)
    (h1 : res.ioctl_error = none) (h2 : res.common_error = none)
    (h3 : 8 ≤ res.data.body.parameter_data_length)
    (hr : r = (res.data.body.parameter_data_length - 8) / 8)
    (hc : c = res.data.elements.length) :
    ∃ out, ThisCommand.process_result res = .ok out ∧
      out.stream_identifiers =
        (res.data.elements.take (min r c)).map Descriptor.stream_identifier ∧
      out.stream_identifiers.length = min c r := by
  have hpr : ThisCommand.process_result res = .ok
      { total_descripter_length := (res.data.body.parameter_data_length - 8) / 8
        number_of_open_streams := res.data.body.number_of_open_streams
        stream_identifiers :=
          (res.data.elements.take
              (min ((res.data.body.parameter_data_length - 8) / 8)
                res.data.elements.length)).map Descriptor.stream_identifier } := by
    simp only [ThisCommand.process_result, ResultData.check_ioctl_error,
      ResultData.check_common_error, h1, h2, FlexibleStruct.body_as_ref,
      FlexibleStruct.elements_as_slice, FlexibleStruct.length]
    rw [if_neg (by omega)]
  subst hr hc
  refine ⟨_, hpr, rfl, ?_⟩
  simp only [List.length_map, List.length_take]
  omega

/-- Claim C3, witness: reported count two, capacity one, one identifier
decoded. -/
theorem c3_decode_clamps_witness :
    ∃ out, ThisCommand.process_result resC3 = .ok out ∧
      out.stream_identifiers =
        (resC3.data.elements.take (min 2 1)).map Descriptor.stream_identifier ∧
      out.stream_identifiers.length = min 1 2 :=
  c3_decode_clamps resC3 2 1 rfl rfl (by decide) rfl rfl

/-- Claim C4, evaluated at the failing input: with no transport error and no
protocol error but a device-reported parameter_data_length of 0 (below the
8-byte overhead), decoding hits the unsigned underflow of
`length as usize - size_of::<u64>()` — a Rust program error (a panic under
overflow checks), not the successful clamped decode the claim requires. -/
theorem c4_underflow_at_small_length :
    ThisCommand.process_result resC4 = .overflow :=
  rfl

/-- Claim C5: whenever the completed outcome reports both a transport-level
error and a protocol-level error, `process_result` surfaces the
transport-level error: the ioctl check runs first and short-circuits. -/
theorem c5_transport_precedence (res : ResultData) (e1 e2 : Nat)
    (h1 : res.ioctl_error = some e1) (h2 : res.common_error = some e2) :
    ThisCommand.process_result res = .err (.ioctlError e1) := by
  simp only [ThisCommand.process_result, ResultData.check_ioctl_error, h1]

/-- Claim C5, witness. -/
theorem c5_transport_precedence_witness :
    ThisCommand.process_result resC5 = .err (.ioctlError 3) :=
  c5_transport_precedence resC5 3 4 rfl rfl

/-- Claim C6, counterexample: after one issue the same instance is unchanged,
a second issue on it succeeds with the same typed result, and a setter applied
after issue acts exactly as before issue — the instance is not consumed,
because `issue` takes `&mut self` and its body performs no mutation. -/
theorem c6_counterexample :
    (cmdC6.issue_mut trC6).2 = cmdC6 ∧
    ((cmdC6.issue_mut trC6).2.issue_mut trC6).1 = .ok ⟨2, 4, [7, 8]⟩ ∧
    (cmdC6.issue_mut trC6).1 = .ok ⟨2, 4, [7, 8]⟩ ∧
    (cmdC6.issue_mut trC6).2.set_control 9 = cmdC6.set_control 9 :=
  ⟨rfl, rfl, rfl, rfl⟩

/-- Claim C6 (amended): `issue` borrows the command mutably and leaves its
configuration unchanged, so the same instance can be issued again with the
same outcome — issuing is repeatable, not one-shot consuming. -/
theorem c6_reissue (c : GetStreamStatusCommand) (transport : ThisCommand → ResultData) :
    (c.issue_mut transport).2 = c ∧
    ((c.issue_mut transport).2.issue_mut transport).1 = (c.issue_mut transport).1 := by
  have h2 : (c.issue_mut transport).2 = c := by
    unfold GetStreamStatusCommand.issue_mut
    split <;> rfl
  exact ⟨h2, by rw [h2]⟩

/-- Claim C7: configuring capacity 3 and issuing against the fake transport
that reports parameter-data length 24 and open-count 5 with elements 10 and
20 (third slot unused) yields total_descripter_length 2,
number_of_open_streams 5 and stream_identifiers [10, 20]. -/
theorem c7_end_to_end :
    cmdC7.issueWith trC7 =
      .ok { total_descripter_length := 2
            number_of_open_streams := 5
            stream_identifiers := [10, 20] } :=
  rfl

/-- Claim C8: encoding a CommandBuffer to its 16-byte sequence and decoding
the fields back yields the original values, for every assignment respecting
each field's declared bit width. -/
theorem c8_roundtrip (b : CommandBuffer)
    (h0 : b.operation_code < 256) (h1 : b.reserved_0 < 8)
    (h2 : b.service_action < 32) (h3 : b.reserved_1 < 65536)
    (h4 : b.starting_stream_identifier < 65536) (h5 : b.reserved_2 < 4294967296)
    (h6 : b.allocation_length < 4294967296) (h7 : b.reserved_3 < 256)
    (h8 : b.control < 256) :
    CommandBuffer.decode b.encode = some b := by
  obtain ⟨op, r0, sa, r1, ssi, r2, al, r3, ct⟩ := b
  simp only [CommandBuffer.encode, CommandBuffer.decode] at *
  simp only [Option.some.injEq, CommandBuffer.mk.injEq]
  omega

/-- Claim C8, witness at a concrete width-respecting assignment. -/
theorem c8_roundtrip_witness :
    CommandBuffer.decode cbC8.encode = some cbC8 :=
  c8_roundtrip cbC8 (by decide) (by decide) (by decide) (by decide) (by decide)
    (by decide) (by decide) (by decide) (by decide)

/-- Claim C9: the serialized layouts are exact for every field assignment:
the Request Descriptor (CommandBuffer) occupies 16 bytes, the Reply Header
(ParameterHeader) 8 bytes and the Reply Element (Descriptor) 8 bytes, the
encoders packing the fields most-significant-bit-first in declaration
order. -/
theorem c9_layout_sizes (b : CommandBuffer) (h : ParameterHeader) (d : Descriptor) :
    b.encode.length = 16 ∧ h.encode.length = 8 ∧ d.encode.length = 8 :=
  ⟨rfl, rfl, rfl⟩

/-- Claim C10: in every successfully decoded CommandResult, the
total_descripter_length equals the unclamped device-reported count
(parameter_data_length - 8) / 8, while the returned identifier sequence is
clamped to the allocated capacity — so the former can strictly exceed the
latter's length. -/
theorem c10_total_unclamped (res : ResultData) (out : CommandResult)
    (h : ThisCommand.process_result res = .ok out) :
    out.total_descripter_length = (res.data.body.parameter_data_length - 8) / 8 ∧
    out.stream_identifiers.length =
      min out.total_descripter_length res.data.elements.length := by
  cases hio : res.ioctl_error with
  | some e =>
    simp [ThisCommand.process_result, ResultData.check_ioctl_error, hio] at h
  | none =>
    cases hco : res.common_error with
    | some e =>
      simp [ThisCommand.process_result, ResultData.check_ioctl_error,
        ResultData.check_common_error, hio, hco] at h
    | none =>
      by_cases hp : res.data.body.parameter_data_length < 8
      · simp [ThisCommand.process_result, ResultData.check_ioctl_error,
          ResultData.check_common_error, FlexibleStruct.body_as_ref, hio, hco,
          if_pos hp] at h
      · simp only [ThisCommand.process_result, ResultData.check_ioctl_error,
          ResultData.check_common_error, FlexibleStruct.body_as_ref,
          FlexibleStruct.elements_as_slice, FlexibleStruct.length, hio, hco] at h
        rw [if_neg hp] at h
        simp only [ProcessOutcome.ok.injEq] at h
        subst h
        refine ⟨rfl, ?_⟩
        simp only [List.length_map, List.length_take]
        omega

/-- Claim C10, witness: the device reports five elements, two were allocated;
the total is five, strictly above the two returned identifiers. -/
theorem c10_total_unclamped_witness :
    (outC10.total_descripter_length =
        (resC10.data.body.parameter_data_length - 8) / 8 ∧
      outC10.stream_identifiers.length =
        min outC10.total_descripter_length resC10.data.elements.length) ∧
    outC10.stream_identifiers.length < outC10.total_descripter_length :=
  ⟨c10_total_unclamped resC10 outC10 rfl, by decide⟩

end GetStreamStatus
